import Mathlib

/-!
Verification development for the "Magic Sketchbook" backend
(`backend/main.py`), a thin orchestration pipeline over external
cloud services (vision description, dialogue agent, image synthesis,
object storage).

The embedding is shallow: every external service call is an oracle
value supplied in an environment record, Python strings are `String`
(`List Char` at the lemma level), Python `None` is `Option.none`, a
raised Python exception is an `Except.error` carrying either a FastAPI
`HTTPException (status, detail)` or a plain exception message.  Each
embedded function also reports the list of external services whose
network call the code actually attempted, so that "no external call is
made" claims are statable.
-/

/-- A raised Python exception: either a FastAPI `HTTPException` with a
status code and a detail string, or any other exception carrying its
message (`str(e)`).  In Python, `HTTPException` derives from
`Exception`, so a bare `except Exception` catches both. -/
inductive PyExc where
  | httpException (status : Nat) (detail : String)
  | error (msg : String)

/-- Python `str(e)`: for a starlette/FastAPI `HTTPException` this is
the string "status: detail"; for other exceptions it is the message. -/
def pyStrOfExc : PyExc → String
  | .httpException s d => Nat.repr s ++ ": " ++ d
  | .error m => m

/-- The external services the backend talks to, used to trace which
network calls a request attempted. -/
inductive ExtService where
  | vision | dialogue | synthesis | storage
deriving DecidableEq

/-- Characters removed by Python `str.strip()` (the ASCII whitespace
set; no character in the repository's data is non-ASCII whitespace). -/
def isPySpace (c : Char) : Bool :=
  c == ' ' || c == '\t' || c == '\n' || c == '\r' || c == '\x0b' || c == '\x0c'

/-- Python `str.strip()` on the character-list view: drop whitespace
from both ends. -/
def pyStrip (l : List Char) : List Char :=
  ((l.dropWhile isPySpace).reverse.dropWhile isPySpace).reverse

/-- `str.strip()` on `String`. -/
def pyStripStr (s : String) : String := String.mk (pyStrip s.toList)

/-- Index of the first occurrence of `sep` as a contiguous substring
(Python `str.find` / the `in` operator), `none` if absent. -/
def findSub (sep : List Char) : List Char → Option Nat
  | [] => if sep.isPrefixOf ([] : List Char) then some 0 else none
  | c :: cs =>
      if sep.isPrefixOf (c :: cs) then some 0
      else (findSub sep cs).map (· + 1)

/-- One step bound: enough fuel is the input length plus one, since a
nonempty separator consumes at least one character per split. -/
def pySplitAux (sep : List Char) : Nat → List Char → List (List Char)
  | 0, s => [s]
  | Nat.succ fuel, s =>
      match findSub sep s with
      | none => [s]
      | some i => s.take i :: pySplitAux sep fuel (s.drop (i + sep.length))

/-- Python `str.split(sep)` for a nonempty separator: the list of
segments between consecutive (non-overlapping, leftmost) occurrences
of `sep`. -/
def pySplit (sep s : List Char) : List (List Char) :=
  pySplitAux sep (s.length + 1) s

/-- The literal marker the agent is instructed to emit
(`"DRAW_PROMPT:"`). -/
def marker : List Char :=
  ['D', 'R', 'A', 'W', '_', 'P', 'R', 'O', 'M', 'P', 'T', ':']

/-- Result of `consult_agent`: the user-visible text and the optional
draw directive. -/
structure AgentResult where
  text : String
  drawPrompt : Option String
deriving DecidableEq

/-- The reply-parsing tail of `consult_agent` (main.py lines 136-145):
if the marker occurs in the (already stripped) reply, `split` on it
and take the stripped part before the first occurrence as the display
text and the stripped second segment (`parts[1]`) as the draw prompt;
otherwise the full reply is the display text and the directive is
absent.  `parts[1]` is total in the source because the branch is
guarded by the `in` check, which guarantees at least two segments;
`getD` is therefore exact on every reachable input. -/
def parseAgentReply (agentReply : String) : AgentResult :=
  if (findSub marker agentReply.toList).isSome then
    let parts := pySplit marker agentReply.toList
    { text := String.mk (pyStrip (parts.getD 0 []))
      drawPrompt := some (String.mk (pyStrip (parts.getD 1 []))) }
  else
    { text := agentReply, drawPrompt := none }

/-- The segment Python's `split` yields as `parts[1]` when the marker
occurs at index `i`: the text between that occurrence and the next
one, or everything after it when there is no further occurrence. -/
def segmentAfterFirst (r : List Char) (i : Nat) : List Char :=
  match findSub marker (r.drop (i + marker.length)) with
  | none => r.drop (i + marker.length)
  | some j => (r.drop (i + marker.length)).take j

/-- The spec's reading of the directive, written from the spec's
words for comparison with the source behavior: the trimmed substring
of EVERYTHING after the first occurrence of the marker (`none` when
the marker is absent). -/
def specDirectiveAfterFirst (r : String) : Option String :=
  match findSub marker r.toList with
  | none => none
  | some i => some (String.mk (pyStrip (r.toList.drop (i + marker.length))))

/-- Lowercase hexadecimal digit for one nibble, as produced by
Python's percent-032x formatting of the UUID integer: digits 0-9 then
letters a-f (code points 48+n and 87+n). -/
def hexChar (n : Fin 16) : Char :=
  if n.val < 10 then Char.ofNat (48 + n.val) else Char.ofNat (87 + n.val)

/-- CPython `uuid.uuid4()` draws 16 random bytes (32 nibbles, indexed
here from the most significant) and then forces the version nibble
(index 12) to 4 and the two variant bits of nibble 16 to `10`.  The
random source is the argument `r`. -/
def uuid4Nibble (r : Fin 32 → Fin 16) (i : Fin 32) : Fin 16 :=
  if i.val = 12 then (4 : Fin 16)
  else if i.val = 16 then ⟨8 + (r i).val % 4, by omega⟩
  else r i

/-- The 32 hex digits of the UUID, before hyphenation. -/
def uuidHex (r : Fin 32 → Fin 16) : List Char :=
  List.ofFn (fun i : Fin 32 => hexChar (uuid4Nibble r i))

/-- `str(uuid.uuid4())`: the 8-4-4-4-12 hyphenated lowercase-hex
rendering (CPython slices the 32-digit hex string). -/
def uuid4Chars (r : Fin 32 → Fin 16) : List Char :=
  (uuidHex r).take 8 ++ '-' ::
    (((uuidHex r).drop 8).take 4 ++ '-' ::
      (((uuidHex r).drop 12).take 4 ++ '-' ::
        (((uuidHex r).drop 16).take 4 ++ '-' :: (uuidHex r).drop 20)))

/-- `str(uuid.uuid4())` as a `String`. -/
def uuid4Str (r : Fin 32 → Fin 16) : String := String.mk (uuid4Chars r)

/-- The storage object key `generated/{uuid4()}.png` drawn by the
publisher in `generate_image_from_text` (main.py line 182). -/
def destBlobName (r : Fin 32 → Fin 16) : String :=
  "generated/" ++ uuid4Str r ++ ".png"

/-- Python `f"{x}"` on an optional value: `None` renders as the four
letters "None". -/
def pyFStrOpt : Option String → String
  | none => "None"
  | some s => s

/-- The bucket name `{PROJECT_ID}-generated-images` (main.py line
181). -/
def bucketNameOf (projectId : Option String) : String :=
  pyFStrOpt projectId ++ "-generated-images"

/-- The public URL the publisher returns (main.py line 194). -/
def publicUrlOf (projectId : Option String) (r : Fin 32 → Fin 16) : String :=
  "https://storage.googleapis.com/" ++ bucketNameOf projectId ++ "/" ++ destBlobName r

/-- One character of a lowercase hexadecimal digit. -/
def isHexLower (c : Char) : Bool :=
  ('0' ≤ c && c ≤ '9') || ('a' ≤ c && c ≤ 'f')

/-- Consume exactly `n` lowercase hex digits, returning the rest. -/
def hexRun : Nat → List Char → Option (List Char)
  | 0, l => some l
  | _ + 1, [] => none
  | n + 1, c :: cs => if isHexLower c then hexRun n cs else none

/-- Consume one hyphen. -/
def expectDash : List Char → Option (List Char)
  | '-' :: cs => some cs
  | _ => none

/-- Syntactic validity of a UUID string: exactly the 8-4-4-4-12
lowercase-hex shape with hyphens in between. -/
def validUuidChars (l : List Char) : Bool :=
  ((((((((hexRun 8 l).bind expectDash).bind (hexRun 4)).bind expectDash).bind
      (hexRun 4)).bind expectDash).bind (hexRun 4)).bind expectDash).bind
    (hexRun 12) == some []

/-- Environment-sourced configuration (main.py lines 41-43):
`GOOGLE_CLOUD_PROJECT` (no default), `GOOGLE_CLOUD_LOCATION` (default
"us-central1"), `AGENT_ID` (no default). -/
structure Config where
  projectId : Option String
  location : String
  agentId : Option String

/-- Python truthiness of an optional string (`if not AGENT_ID`): both
`None` and the empty string are falsy. -/
def pyTruthyOptStr : Option String → Bool
  | none => false
  | some s => !(s == "")

/-- Python truthiness of a string. -/
def pyTruthyStr (s : String) : Bool := !(s == "")

/-- Oracle outcomes for every external-service interaction a single
request can make.  `Except.error m` means the underlying SDK call
raised an exception whose `str` is `m`; the payloads are what the
orchestration code actually inspects (the vision reply text, the
per-message optional first text segment of the dialogue reply, the
candidate-image list of which only emptiness and the first element
matter, and unit acknowledgements for the staging/storage steps).
`rand` is the entropy `uuid.uuid4()` consumes. -/
structure Env where
  vision : Except String String
  detectIntent : Except String (List (Option String))
  loadModel : Except String Unit
  generateImages : Except String (List Unit)
  save : Except String Unit
  storageClient : Except String Unit
  getBucket : Except String Unit
  createBucket : Except String Unit
  upload : Except String Unit
  rand : Fin 32 → Fin 16

/-- `analyze_image` (main.py lines 63-81): call Gemini on the bytes
and strip the reply.  The image bytes only flow into the opaque
external call, whose outcome the oracle fixes, so they are not a
parameter here.  The vision network call is attempted
unconditionally. -/
def analyzeImage (env : Env) : Except PyExc String × List ExtService :=
  (match env.vision with
   | .error m => .error (.error m)
   | .ok t => .ok (pyStripStr t),
   [.vision])

/-- The reply-assembly loop of `consult_agent` (main.py lines
126-131): concatenate the first text of every textual response
message, each followed by a space, then strip. -/
def assembleReply (msgs : List (Option String)) : String :=
  pyStripStr (msgs.foldl
    (fun acc m => match m with
      | none => acc
      | some t => acc ++ t ++ " ") "")

/-- `consult_agent` (main.py lines 83-145).  If `AGENT_ID` is falsy
the function returns a fixed Korean "Agent ID not configured" message
and no directive without touching the network.  Otherwise it builds
the session input (folding the image description in unless it is falsy
or the sentinel "no image" string), performs the Dialogflow
`detect_intent` call, assembles and strips the reply, and parses it
for the draw marker.  The reply content is oracle-fixed, so the
composed input is computed (for fidelity) but does not influence the
oracle. -/
def consultAgent (cfg : Config) (env : Env)
    (_sessionId userText imageDescription : String) :
    Except PyExc AgentResult × List ExtService :=
  if pyTruthyOptStr cfg.agentId = false then
    (.ok { text := "Agent ID가 설정되지 않았습니다.", drawPrompt := none }, [])
  else
    let _fullInput :=
      if pyTruthyStr imageDescription && !(imageDescription == "이미지 없음") then
        "[사용자가 그린 그림: " ++ imageDescription ++ "]\n" ++ userText
      else userText
    match env.detectIntent with
    | .error m => (.error (.error m), [.dialogue])
    | .ok msgs => (.ok (parseAgentReply (assembleReply msgs)), [.dialogue])

/-- Result of `generate_image_from_text`: the returned URL or raised
exception, the external calls attempted, and whether the temporary
staging file is still on disk when the function exits. -/
structure GenResult where
  result : Except PyExc String
  calls : List ExtService
  tempLeft : Bool

/-- `generate_image_from_text` (main.py lines 147-198).  Load the
Imagen model, generate; zero candidates raises `HTTPException(400)`
with the Korean safety-filter message.  Otherwise the first candidate
is staged to a `NamedTemporaryFile(delete=False)`; if that `save`
raises, the function exits with the staging file still on disk (the
`try`/`finally` that removes it only wraps the upload phase).  The
upload phase builds the bucket name from `PROJECT_ID` (an f-string, so
an absent project renders as "None"), gets or creates the bucket
(a bare `except` around `get_bucket`), uploads, and returns the public
URL; its `finally` removes the staging file on success and failure
alike.  Model-load failure is before any synthesis network call;
client construction is local, so `.storage` is traced once the bucket
is first touched. -/
def generateImageFromText (cfg : Config) (env : Env) (_prompt : String) :
    GenResult :=
  match env.loadModel with
  | .error m => { result := .error (.error m), calls := [], tempLeft := false }
  | .ok _ =>
  match env.generateImages with
  | .error m => { result := .error (.error m), calls := [.synthesis], tempLeft := false }
  | .ok imgs =>
  if imgs.length = 0 then
    { result := .error (.httpException 400 "이미지를 생성할 수 없습니다 (안전 필터).")
      calls := [.synthesis], tempLeft := false }
  else
    match env.save with
    | .error m => { result := .error (.error m), calls := [.synthesis], tempLeft := true }
    | .ok _ =>
    match env.storageClient with
    | .error m => { result := .error (.error m), calls := [.synthesis], tempLeft := false }
    | .ok _ =>
    let bucketR : Except String Unit :=
      match env.getBucket with
      | .ok _ => .ok ()
      | .error _ => env.createBucket
    match bucketR with
    | .error m =>
        { result := .error (.error m), calls := [.synthesis, .storage], tempLeft := false }
    | .ok _ =>
    match env.upload with
    | .error m =>
        { result := .error (.error m), calls := [.synthesis, .storage], tempLeft := false }
    | .ok _ =>
        { result := .ok ("https://storage.googleapis.com/" ++ bucketNameOf cfg.projectId
            ++ "/" ++ destBlobName env.rand)
          calls := [.synthesis, .storage], tempLeft := false }

/-- A `/chat-to-draw` request (main.py lines 205-210): optional
uploaded file bytes, required user text, session id (default
"default-session"), generation flag (default true), ignored chat
history. -/
structure ChatRequest where
  file : Option (List Nat)
  userText : String
  sessionId : String
  generateImage : Bool
  chatHistory : String

/-- The `/chat-to-draw` JSON response body. -/
structure ChatResponse where
  agentMessage : String
  generatedImage : Option String
  drawPrompt : Option String
deriving DecidableEq

/-- Body of `chat_to_draw` before its `except` clause (main.py lines
212-234): describe the image when one with nonempty bytes was
uploaded, consult the agent, and synthesize only when the directive is
truthy and the generation flag is set. -/
def chatToDrawBody (cfg : Config) (env : Env) (req : ChatRequest) :
    Except PyExc ChatResponse × List ExtService :=
  let stage1 : Except PyExc String × List ExtService :=
    match req.file with
    | none => (.ok "이미지 없음", [])
    | some bytes =>
        if bytes.length > 0 then analyzeImage env else (.ok "이미지 없음", [])
  match stage1 with
  | (.error e, tr) => (.error e, tr)
  | (.ok desc, tr1) =>
  match consultAgent cfg env req.sessionId req.userText desc with
  | (.error e, tr2) => (.error e, tr1 ++ tr2)
  | (.ok ag, tr2) =>
    if pyTruthyOptStr ag.drawPrompt && req.generateImage then
      let g := generateImageFromText cfg env (ag.drawPrompt.getD "")
      match g.result with
      | .error e => (.error e, tr1 ++ tr2 ++ g.calls)
      | .ok url =>
          (.ok { agentMessage := ag.text, generatedImage := some url
                 drawPrompt := ag.drawPrompt },
           tr1 ++ tr2 ++ g.calls)
    else
      (.ok { agentMessage := ag.text, generatedImage := none
             drawPrompt := ag.drawPrompt },
       tr1 ++ tr2)

/-- `chat_to_draw` (main.py lines 204-239): the whole body is wrapped
in `try`/`except Exception`, which in Python also catches
`HTTPException` (it derives from `Exception`), re-raising every
exception as `HTTPException(500, str(e))`. -/
def chatToDraw (cfg : Config) (env : Env) (req : ChatRequest) :
    Except PyExc ChatResponse × List ExtService :=
  match chatToDrawBody cfg env req with
  | (.error e, tr) => (.error (.httpException 500 (pyStrOfExc e)), tr)
  | ok => ok

/-- The `/generate-image` JSON response body. -/
structure GenLegacyResponse where
  image : String
  description : String
deriving DecidableEq

/-- `generate_image_legacy` (main.py lines 241-250): describe the
uploaded bytes, compose the style prompt, generate and publish.  There
is no `try`/`except` here: any exception leaves the endpoint
unhandled. -/
def generateImageLegacy (cfg : Config) (env : Env)
    (_file : List Nat) (stylePrompt : String) :
    Except PyExc GenLegacyResponse × List ExtService :=
  match analyzeImage env with
  | (.error e, tr) => (.error e, tr)
  | (.ok desc, tr1) =>
    let _prompt :=
      "A cute, 3D rendered digital art of " ++ desc ++ ". Style: " ++ stylePrompt
    let g := generateImageFromText cfg env _prompt
    match g.result with
    | .error e => (.error e, tr1 ++ g.calls)
    | .ok url => (.ok { image := url, description := desc }, tr1 ++ g.calls)

/-- The health-check response body. -/
structure HealthResponse where
  status : String
  service : String
deriving DecidableEq

/-- `health_check` (main.py lines 55-57): a constant body, computed
without reading any configuration.  The `Config` argument records that
the process-level configuration, whatever it is, cannot influence the
response. -/
def healthCheck (_cfg : Config) : HealthResponse :=
  { status := "ok", service := "Magic Sketchbook Backend (Dialogflow CX)" }

/-- How the surrounding framework (FastAPI/Starlette) turns an
endpoint outcome into an HTTP response: a raised `HTTPException`
becomes its own status and detail, a return value becomes 200, and an
exception that escapes the endpoint uncaught is turned by the server
error middleware into a plain 500 whose body is the fixed string
"Internal Server Error" - the original message is logged, not sent. -/
def frameworkRespond {α : Type} : Except PyExc α → Nat × Option String
  | .ok _ => (200, none)
  | .error (.httpException s d) => (s, some d)
  | .error (.error _) => (500, some "Internal Server Error")

/-- A deployment with no configuration at all (neither project nor
agent id). -/
def cfgNoProj : Config :=
  { projectId := none, location := "us-central1", agentId := none }

/-- A fully configured deployment. -/
def cfgFull : Config :=
  { projectId := some "my-proj", location := "us-central1", agentId := some "agent-1" }

/-- An environment in which every external call succeeds: the vision
model sees a cat, the agent asks to draw one, synthesis yields one
candidate and storage accepts it. -/
def envAllOk : Env :=
  { vision := .ok "a cat"
    detectIntent := .ok [some "그릴게요! DRAW_PROMPT: a cute cat"]
    loadModel := .ok (), generateImages := .ok [()], save := .ok ()
    storageClient := .ok (), getBucket := .ok (), createBucket := .ok ()
    upload := .ok (), rand := fun _ => 0 }

/-- `envAllOk` except that synthesis returns zero candidates (a
safety-filter rejection). -/
def envZeroImgs : Env := { envAllOk with generateImages := .ok [] }

/-- `envAllOk` except that staging the candidate to the temporary
file raises. -/
def envSaveFail : Env := { envAllOk with save := .error "No space left on device" }

/-- `envAllOk` except that the final upload raises. -/
def envUploadFail : Env := { envAllOk with upload := .error "503 Service Unavailable" }

/-- `envAllOk` except that the vision call raises. -/
def envVisionFail : Env := { envAllOk with vision := .error "boom" }

/-- A `/chat-to-draw` request with no uploaded image and the
generation flag set. -/
def reqNoFile : ChatRequest :=
  { file := none, userText := "그려줘 고양이", sessionId := "default-session"
    generateImage := true, chatHistory := "[]" }

/-- `envAllOk` except that the agent's reply ends exactly with the
bare marker (nothing after it). -/
def envTrailing : Env :=
  { envAllOk with detectIntent := .ok [some "그릴게요! DRAW_PROMPT:"] }

/-- C1 counterexample: with the project identifier absent, a
/chat-to-draw request with no image while the agent id is also unset
completes with HTTP 200 (the fixed not-configured message, no
external call) - not HTTP 500 as the claim requires of every
request. -/
theorem c1_counterexample :
    chatToDraw cfgNoProj envAllOk reqNoFile =
      (.ok { agentMessage := "Agent ID가 설정되지 않았습니다."
             generatedImage := none, drawPrompt := none }, []) ∧
    (frameworkRespond (chatToDraw cfgNoProj envAllOk reqNoFile).1).1 = 200 ∧
    (frameworkRespond (chatToDraw cfgNoProj envAllOk reqNoFile).1).1 ≠ 500 :=
  ⟨rfl, rfl, by decide⟩

/-- C1 amended: the code never checks the project identifier.  With
it absent, a /chat-to-draw request that exercises no
configuration-dependent stage (no uploaded image, agent id also
absent) returns HTTP 200 with the fixed not-configured message and an
empty external-call trace; HTTP 500 arises only when an invoked stage
raises. -/
theorem c1_amended_no_check (cfg : Config) (env : Env) (req : ChatRequest)
    (hp : cfg.projectId = none) (ha : cfg.agentId = none)
    (hf : req.file = none) :
    chatToDraw cfg env req =
      (.ok { agentMessage := "Agent ID가 설정되지 않았습니다."
             generatedImage := none, drawPrompt := none }, []) ∧
    (frameworkRespond (chatToDraw cfg env req).1).1 = 200 := by
  obtain ⟨pid, loc, aid⟩ := cfg
  obtain ⟨f, ut, sid, gi, ch⟩ := req
  cases hp; cases ha; cases hf
  exact ⟨rfl, rfl⟩

/-- C1 amended, witnessed at a concrete unconfigured deployment. -/
theorem c1_amended_witness :
    cfgNoProj.projectId = none ∧
    (chatToDraw cfgNoProj envAllOk reqNoFile =
      (.ok { agentMessage := "Agent ID가 설정되지 않았습니다."
             generatedImage := none, drawPrompt := none }, []) ∧
     (frameworkRespond (chatToDraw cfgNoProj envAllOk reqNoFile).1).1 = 200) :=
  ⟨rfl, c1_amended_no_check cfgNoProj envAllOk reqNoFile rfl rfl rfl⟩

/-- C2, evaluated at the failing input: when synthesis returns zero
candidates, /generate-image does surface HTTP 400 with the Korean
safety message, but /chat-to-draw's blanket `except Exception`
catches the `HTTPException(400)` (it derives from `Exception`) and
re-raises it as HTTP 500 whose detail is `str` of the original
exception. -/
theorem c2_bug_eval :
    frameworkRespond (chatToDraw cfgFull envZeroImgs reqNoFile).1 =
      (500, some "400: 이미지를 생성할 수 없습니다 (안전 필터).") ∧
    frameworkRespond (generateImageLegacy cfgFull envZeroImgs [0] "3D render").1 =
      (400, some "이미지를 생성할 수 없습니다 (안전 필터).") :=
  ⟨rfl, rfl⟩

/-- C6: the health endpoint's body is a constant: status "ok" and the
service string, whatever the configuration state is. -/
theorem c6_health_constant (cfg : Config) :
    healthCheck cfg =
      { status := "ok", service := "Magic Sketchbook Backend (Dialogflow CX)" } :=
  rfl

/-- C7 counterexample: when staging the generated bytes to the
temporary file fails, `generate_image_from_text` exits (with the
propagating exception) while the `delete=False` temporary file is
still on disk: the removing `finally` only wraps the upload phase. -/
theorem c7_counterexample :
    (generateImageFromText cfgFull envSaveFail "a cute cat").tempLeft = true ∧
    (generateImageFromText cfgFull envSaveFail "a cute cat").result =
      .error (.error "No space left on device") :=
  ⟨rfl, rfl⟩

/-- C7 amended: provided the staging write itself succeeds, the
temporary file is removed on every exit path of the synthesis-and-
publish operation, success and failure alike. -/
theorem c7_amended_cleanup (cfg : Config) (env : Env) (prompt : String)
    (hs : env.save = .ok ()) :
    (generateImageFromText cfg env prompt).tempLeft = false := by
  obtain ⟨v, di, lm, gi, sv, sc, gb, cb, up, rnd⟩ := env
  cases hs
  cases lm with
  | error m => rfl
  | ok u =>
    cases gi with
    | error m => rfl
    | ok imgs =>
      cases imgs with
      | nil => rfl
      | cons a as =>
        cases sc with
        | error m => rfl
        | ok u2 =>
          cases gb with
          | error m =>
            cases cb with
            | error m2 => rfl
            | ok u3 => cases up <;> rfl
          | ok u3 => cases up <;> rfl

/-- C7 amended, witnessed on a failing exit path: the upload raises,
yet the temporary file is removed. -/
theorem c7_amended_witness :
    envUploadFail.save = .ok () ∧
    (generateImageFromText cfgFull envUploadFail "a cute cat").tempLeft = false :=
  ⟨rfl, c7_amended_cleanup cfgFull envUploadFail "a cute cat" rfl⟩

/-- C8: with the agent identifier absent, `consult_agent` is a no-op:
it returns the fixed Korean not-configured message with no draw
directive and attempts no external call. -/
theorem c8_agent_absent (cfg : Config) (env : Env)
    (sid ut desc : String) (ha : cfg.agentId = none) :
    consultAgent cfg env sid ut desc =
      (.ok { text := "Agent ID가 설정되지 않았습니다.", drawPrompt := none }, []) := by
  obtain ⟨pid, loc, aid⟩ := cfg
  cases ha
  rfl

/-- C8, witnessed at a concrete unconfigured deployment. -/
theorem c8_witness :
    cfgNoProj.agentId = none ∧
    consultAgent cfgNoProj envAllOk "default-session" "hi" "이미지 없음" =
      (.ok { text := "Agent ID가 설정되지 않았습니다.", drawPrompt := none }, []) :=
  ⟨rfl, c8_agent_absent cfgNoProj envAllOk "default-session" "hi" "이미지 없음" rfl⟩

/-- C9 counterexample: /generate-image has no `try`/`except`: a
vision failure escapes the endpoint as the raw exception (it is not
converted to an `HTTPException` there), and the framework's error
middleware answers HTTP 500 with the fixed "Internal Server Error"
body - not the raw error text "boom" the claim requires. -/
theorem c9_counterexample :
    (generateImageLegacy cfgFull envVisionFail [0] "3D render").1 =
      .error (.error "boom") ∧
    frameworkRespond (generateImageLegacy cfgFull envVisionFail [0] "3D render").1 =
      (500, some "Internal Server Error") ∧
    ("Internal Server Error" : String) ≠ "boom" :=
  ⟨rfl, rfl, by decide⟩

/-- C9 amended: /generate-image catches nothing.  A vision-stage
exception leaves the endpoint unchanged, and any non-`HTTPException`
escaping the endpoint is answered by the framework with HTTP 500 and
the generic "Internal Server Error" body; the raw-error-text detail
behavior belongs to /chat-to-draw only. -/
theorem c9_amended_uncaught (cfg : Config) (env : Env)
    (file : List Nat) (style : String) :
    (∀ m, env.vision = .error m →
      (generateImageLegacy cfg env file style).1 = .error (.error m)) ∧
    (∀ m, (generateImageLegacy cfg env file style).1 = .error (.error m) →
      frameworkRespond (generateImageLegacy cfg env file style).1 =
        (500, some "Internal Server Error")) := by
  constructor
  · intro m hv
    unfold generateImageLegacy analyzeImage
    rw [hv]
  · intro m h
    rw [h]
    rfl

/-- C9 amended, witnessed at a concrete vision failure. -/
theorem c9_amended_witness :
    frameworkRespond (generateImageLegacy cfgFull envVisionFail [0] "3D render").1 =
      (500, some "Internal Server Error") :=
  (c9_amended_uncaught cfgFull envVisionFail [0] "3D render").2 "boom" rfl

/-- When `findSub` reports an occurrence at `i`, the separator fits
inside the haystack there. -/
theorem findSub_le (sep : List Char) (s : List Char) (i : Nat)
    (h : findSub sep s = some i) : i + sep.length ≤ s.length := by
  induction s generalizing i with
  | nil =>
    unfold findSub at h
    by_cases hp : sep.isPrefixOf ([] : List Char)
    · have hnil : sep = [] := List.prefix_nil.mp (List.isPrefixOf_iff_prefix.mp hp)
      simp [hp] at h
      subst h
      simp [hnil]
    · simp [hp] at h
  | cons c cs ih =>
    unfold findSub at h
    by_cases hp : sep.isPrefixOf (c :: cs)
    · have hle := (List.isPrefixOf_iff_prefix.mp hp).length_le
      simp [hp] at h
      subst h
      simpa using hle
    · simp [hp] at h
      obtain ⟨j, hj, hji⟩ := h
      have := ih j hj
      simp only [List.length_cons]
      omega

/-- `parts[0]` of the split is the text before the first
occurrence. -/
theorem pySplit_getD_zero (s : List Char) (i : Nat)
    (h : findSub marker s = some i) :
    (pySplit marker s).getD 0 [] = s.take i := by
  simp [pySplit, pySplitAux, h]

/-- `parts[1]` of the split is the segment between the first
occurrence and the next one (or the end). -/
theorem pySplit_getD_one (s : List Char) (i : Nat)
    (h : findSub marker s = some i) :
    (pySplit marker s).getD 1 [] = segmentAfterFirst s i := by
  have hlen : i + marker.length ≤ s.length := findSub_le _ _ _ h
  have hm : (0 : Nat) < marker.length := by decide
  obtain ⟨m, hmm⟩ : ∃ m, s.length = m + 1 := ⟨s.length - 1, by omega⟩
  simp only [pySplit, pySplitAux, h, List.getD_cons_succ]
  rw [hmm]
  unfold segmentAfterFirst
  cases hfs : findSub marker (s.drop (i + marker.length)) with
  | none => simp [pySplitAux, hfs]
  | some j => simp [pySplitAux, hfs]

/-- What the code's parse does whenever the marker occurs at index
`i`: the message is the trimmed prefix and the directive the trimmed
inter-occurrence segment. -/
theorem parse_found (r : String) (i : Nat)
    (h : findSub marker r.toList = some i) :
    parseAgentReply r =
      { text := String.mk (pyStrip (r.toList.take i))
        drawPrompt := some (String.mk (pyStrip (segmentAfterFirst r.toList i))) } := by
  simp only [parseAgentReply, h, Option.isSome_some, if_true]
  rw [pySplit_getD_zero _ _ h, pySplit_getD_one _ _ h]

/-- C3 counterexample: on a reply with two marker occurrences the
code's directive is the trimmed text between the two occurrences
(Python `split(...)` plus `parts[1]`), not the trimmed text of
everything after the first occurrence as the claim states. -/
theorem c3_counterexample :
    (parseAgentReply "a DRAW_PROMPT: b DRAW_PROMPT: c").drawPrompt = some "b" ∧
    specDirectiveAfterFirst "a DRAW_PROMPT: b DRAW_PROMPT: c" =
      some "b DRAW_PROMPT: c" ∧
    (parseAgentReply "a DRAW_PROMPT: b DRAW_PROMPT: c").drawPrompt ≠
      specDirectiveAfterFirst "a DRAW_PROMPT: b DRAW_PROMPT: c" := by
  exact ⟨rfl, rfl, by decide⟩

/-- C3 amended: with no marker, the directive is absent and the full
reply is the message; with a first occurrence at `i`, the message is
the trimmed text before it and the directive is the trimmed segment
between it and the next occurrence (which is everything after it
whenever the marker occurs exactly once). -/
theorem c3_amended_parse (r : String) :
    (findSub marker r.toList = none →
      parseAgentReply r = { text := r, drawPrompt := none }) ∧
    (∀ i, findSub marker r.toList = some i →
      parseAgentReply r =
        { text := String.mk (pyStrip (r.toList.take i))
          drawPrompt := some (String.mk (pyStrip (segmentAfterFirst r.toList i))) }) := by
  constructor
  · intro h
    unfold parseAgentReply
    rw [h]
    rfl
  · intro i h
    exact parse_found r i h

/-- C3 amended, witnessed on a single-occurrence reply, where the
amended and original readings coincide. -/
theorem c3_amended_witness :
    parseAgentReply "x DRAW_PROMPT: y" =
      { text := String.mk (pyStrip ("x DRAW_PROMPT: y".toList.take 2))
        drawPrompt :=
          some (String.mk (pyStrip (segmentAfterFirst "x DRAW_PROMPT: y".toList 2))) } ∧
    parseAgentReply "x DRAW_PROMPT: y" = { text := "x", drawPrompt := some "y" } :=
  ⟨(c3_amended_parse "x DRAW_PROMPT: y").2 2 (by decide), by decide⟩

/-- Every hex digit the formatter emits is a lowercase hex
character. -/
theorem hexChar_hex : ∀ n : Fin 16, isHexLower (hexChar n) = true := by decide

/-- All 32 pre-hyphenation digits are lowercase hex. -/
theorem mem_uuidHex_hex (r : Fin 32 → Fin 16) :
    ∀ c ∈ uuidHex r, isHexLower c = true := by
  intro c hc
  rw [uuidHex, List.mem_ofFn, Set.mem_range] at hc
  obtain ⟨i, hi⟩ := hc
  rw [← hi]
  exact hexChar_hex _

/-- `hexRun` consumes exactly an all-hex block of its length. -/
theorem hexRun_append (l rest : List Char) (h : ∀ c ∈ l, isHexLower c = true) :
    hexRun l.length (l ++ rest) = some rest := by
  induction l with
  | nil => rfl
  | cons c cs ih =>
    have hc := h c (List.mem_cons_self c cs)
    simp [hexRun, hc, ih (fun x hx => h x (List.mem_cons_of_mem c hx))]

/-- `hexRun_append`, keyed by an explicit digit count. -/
theorem hexRun_eq (l rest : List Char) (n : Nat)
    (h : ∀ c ∈ l, isHexLower c = true) (hl : l.length = n) :
    hexRun n (l ++ rest) = some rest := by
  subst hl
  exact hexRun_append l rest h

/-- `hexRun` on exactly an all-hex block of its length. -/
theorem hexRun_exact (l : List Char) (n : Nat)
    (h : ∀ c ∈ l, isHexLower c = true) (hl : l.length = n) :
    hexRun n l = some [] := by
  rw [show l = l ++ [] from (List.append_nil l).symm] at h ⊢
  exact hexRun_eq l [] n (by simpa using h) hl

/-- Shape lemma: any 8-4-4-4-12 hyphenated arrangement of lowercase
hex blocks passes the syntactic UUID check. -/
theorem validUuid_groups (a b c d e : List Char)
    (ha : ∀ x ∈ a, isHexLower x = true) (la : a.length = 8)
    (hb : ∀ x ∈ b, isHexLower x = true) (lb : b.length = 4)
    (hc : ∀ x ∈ c, isHexLower x = true) (lc : c.length = 4)
    (hd : ∀ x ∈ d, isHexLower x = true) (ld : d.length = 4)
    (he : ∀ x ∈ e, isHexLower x = true) (le' : e.length = 12) :
    validUuidChars (a ++ '-' :: (b ++ '-' :: (c ++ '-' :: (d ++ '-' :: e)))) = true := by
  unfold validUuidChars
  rw [hexRun_eq a _ 8 ha la]
  simp only [Option.some_bind, expectDash]
  rw [hexRun_eq b _ 4 hb lb]
  simp only [Option.some_bind, expectDash]
  rw [hexRun_eq c _ 4 hc lc]
  simp only [Option.some_bind, expectDash]
  rw [hexRun_eq d _ 4 hd ld]
  simp only [Option.some_bind, expectDash]
  rw [hexRun_exact e 12 he le']
  rfl

/-- `str(uuid.uuid4())` is always a syntactically valid UUID. -/
theorem uuid4_always_valid (r : Fin 32 → Fin 16) :
    validUuidChars (uuid4Chars r) = true := by
  have hhex := mem_uuidHex_hex r
  unfold uuid4Chars
  refine validUuid_groups _ _ _ _ _ ?_ ?_ ?_ ?_ ?_ ?_ ?_ ?_ ?_ ?_
  · exact fun x hx => hhex x (List.mem_of_mem_take hx)
  · simp [uuidHex]
  · exact fun x hx => hhex x (List.mem_of_mem_drop (List.mem_of_mem_take hx))
  · simp [uuidHex]
  · exact fun x hx => hhex x (List.mem_of_mem_drop (List.mem_of_mem_take hx))
  · simp [uuidHex]
  · exact fun x hx => hhex x (List.mem_of_mem_drop (List.mem_of_mem_take hx))
  · simp [uuidHex]
  · exact fun x hx => hhex x (List.mem_of_mem_drop hx)
  · simp [uuidHex]

/-- The URL built by the code (base ++ bucket ++ "/" ++ key) equals
the spec's flat pattern. -/
theorem url_pattern (p : String) (r : Fin 32 → Fin 16) :
    "https://storage.googleapis.com/" ++ bucketNameOf (some p) ++ "/" ++ destBlobName r =
    "https://storage.googleapis.com/" ++ p ++ "-generated-images/generated/"
      ++ uuid4Str r ++ ".png" := by
  apply String.ext
  simp only [bucketNameOf, destBlobName, pyFStrOpt, String.data_append, List.append_assoc]
  rfl

/-- C4: whenever `generate_image_from_text` returns a URL, it is
exactly the flat pattern base/project-generated-images/generated/uuid
with a syntactically valid (8-4-4-4-12 lowercase hex) UUID drawn from
the fresh randomness. -/
theorem c4_url_shape (cfg : Config) (env : Env) (prompt p url : String)
    (hp : cfg.projectId = some p)
    (hres : (generateImageFromText cfg env prompt).result = .ok url) :
    url = "https://storage.googleapis.com/" ++ p ++ "-generated-images/generated/"
        ++ uuid4Str env.rand ++ ".png" ∧
    validUuidChars (uuid4Chars env.rand) = true := by
  refine ⟨?_, uuid4_always_valid env.rand⟩
  obtain ⟨v, di, lm, gi, sv, sc, gb, cb, up, rnd⟩ := env
  obtain ⟨pid, loc, aid⟩ := cfg
  cases hp
  unfold generateImageFromText at hres
  cases lm with
  | error m => exact Except.noConfusion hres
  | ok u1 =>
  cases gi with
  | error m => exact Except.noConfusion hres
  | ok imgs =>
  cases imgs with
  | nil => exact Except.noConfusion hres
  | cons a as =>
  cases sv with
  | error m => exact Except.noConfusion hres
  | ok u2 =>
  cases sc with
  | error m => exact Except.noConfusion hres
  | ok u3 =>
  cases gb with
  | error m =>
    cases cb with
    | error m2 => exact Except.noConfusion hres
    | ok u4 =>
      cases up with
      | error m3 => exact Except.noConfusion hres
      | ok u5 =>
        injection hres with h
        rw [← h]
        exact url_pattern p rnd
  | ok u4 =>
    cases up with
    | error m3 => exact Except.noConfusion hres
    | ok u5 =>
      injection hres with h
      rw [← h]
      exact url_pattern p rnd

/-- C4, witnessed at a concrete all-success run. -/
theorem c4_witness :
    cfgFull.projectId = some "my-proj" ∧
    (("https://storage.googleapis.com/my-proj-generated-images/generated/00000000-0000-4000-8000-000000000000.png" : String) =
       "https://storage.googleapis.com/" ++ "my-proj" ++ "-generated-images/generated/"
         ++ uuid4Str envAllOk.rand ++ ".png" ∧
     validUuidChars (uuid4Chars envAllOk.rand) = true) :=
  ⟨rfl, c4_url_shape cfgFull envAllOk "a cute cat" "my-proj"
    "https://storage.googleapis.com/my-proj-generated-images/generated/00000000-0000-4000-8000-000000000000.png"
    rfl rfl⟩

/-- Any list decomposes into its 8-4-4-4-rest slices. -/
theorem slice_decomp (l : List Char) :
    l = l.take 8 ++ ((l.drop 8).take 4 ++ ((l.drop 12).take 4 ++
      ((l.drop 16).take 4 ++ l.drop 20))) := by
  conv_lhs => rw [← List.take_append_drop 8 l]
  congr 1
  conv_lhs => rw [← List.take_append_drop 4 (l.drop 8)]
  rw [List.drop_drop]
  congr 1
  conv_lhs => rw [← List.take_append_drop 4 (l.drop 12)]
  rw [List.drop_drop]
  congr 1
  conv_lhs => rw [← List.take_append_drop 4 (l.drop 16)]
  rw [List.drop_drop]

/-- Equal hyphenated UUID strings have equal underlying 32-digit hex
strings. -/
theorem uuid4Chars_inj_hex (r₁ r₂ : Fin 32 → Fin 16)
    (h : uuid4Chars r₁ = uuid4Chars r₂) : uuidHex r₁ = uuidHex r₂ := by
  unfold uuid4Chars at h
  obtain ⟨e1, h⟩ := List.append_inj h (by simp [uuidHex])
  injection h with hh h
  obtain ⟨e2, h⟩ := List.append_inj h (by simp [uuidHex])
  injection h with hh2 h
  obtain ⟨e3, h⟩ := List.append_inj h (by simp [uuidHex])
  injection h with hh3 h
  obtain ⟨e4, h⟩ := List.append_inj h (by simp [uuidHex])
  injection h with hh4 e5
  rw [slice_decomp (uuidHex r₁), slice_decomp (uuidHex r₂), e1, e2, e3, e4, e5]

/-- Equal hex strings force equal random draws at every nibble other
than the version nibble (12) and the variant nibble (16). -/
theorem uuidHex_inj_nibble (r₁ r₂ : Fin 32 → Fin 16) (i : Fin 32)
    (h12 : i.val ≠ 12) (h16 : i.val ≠ 16)
    (h : uuidHex r₁ = uuidHex r₂) : r₁ i = r₂ i := by
  unfold uuidHex at h
  rw [List.ofFn_inj] at h
  have hc : hexChar (uuid4Nibble r₁ i) = hexChar (uuid4Nibble r₂ i) := congrFun h i
  have hinj : ∀ a b : Fin 16, hexChar a = hexChar b → a = b := by decide
  have hn := hinj _ _ hc
  unfold uuid4Nibble at hn
  simp only [h12, h16, if_false] at hn
  exact hn

/-- C5: the storage object key is built from the fresh random draw
alone (no content addressing: the request text does not even occur in
the key), and two publishes whose draws differ in any nibble outside
the two positions `uuid4` overwrites produce distinct keys. -/
theorem c5_fresh_keys_distinct (r₁ r₂ : Fin 32 → Fin 16) (i : Fin 32)
    (h12 : i.val ≠ 12) (h16 : i.val ≠ 16) (hne : r₁ i ≠ r₂ i) :
    destBlobName r₁ ≠ destBlobName r₂ := by
  intro heq
  apply hne
  apply uuidHex_inj_nibble r₁ r₂ i h12 h16
  apply uuid4Chars_inj_hex
  have hd := congrArg String.data heq
  simp only [destBlobName, String.data_append] at hd
  have hu : (uuid4Str r₁).data = (uuid4Str r₂).data :=
    List.append_cancel_left (List.append_cancel_right hd)
  exact hu

/-- C5, witnessed at two concrete distinct draws. -/
theorem c5_witness :
    destBlobName (fun _ => 0) ≠ destBlobName (fun _ => 1) :=
  c5_fresh_keys_distinct (fun _ => 0) (fun _ => 1) 0
    (by decide) (by decide) (by decide)

/-- The marker cannot occur inside all-whitespace text (it starts
with a non-whitespace character). -/
theorem findSub_marker_all_space (l : List Char)
    (h : ∀ c ∈ l, isPySpace c = true) : findSub marker l = none := by
  induction l with
  | nil => decide
  | cons c cs ih =>
    have hc := h c (List.mem_cons_self c cs)
    have hcD : c ≠ 'D' := by
      intro hEq
      subst hEq
      exact absurd hc (by decide)
    have hD : ('D' == c) = false := by
      rw [beq_eq_false_iff_ne]
      exact fun hEq => hcD hEq.symm
    have hp : marker.isPrefixOf (c :: cs) = false := by
      simp [marker, List.isPrefixOf, hD]
    unfold findSub
    simp [hp, ih (fun x hx => h x (List.mem_cons_of_mem c hx))]

/-- Stripping all-whitespace text yields the empty string. -/
theorem pyStrip_all_space (l : List Char)
    (h : ∀ c ∈ l, isPySpace c = true) : pyStrip l = [] := by
  unfold pyStrip
  rw [List.dropWhile_eq_nil_iff.mpr (fun x hx => h x hx)]
  rfl

/-- C10: when the assembled (stripped) dialogue reply carries the
marker at index `i` with nothing but whitespace after it, the
/chat-to-draw response carries `draw_prompt` equal to the EMPTY
string (not null), no generated image, and no synthesis call is
attempted - whatever the `generate_image` flag says, because the
synthesis guard requires a truthy (non-empty) directive. -/
theorem c10_trailing_marker (cfg : Config) (env : Env) (req : ChatRequest)
    (msgs : List (Option String)) (vd : String) (i : Nat)
    (hv : env.vision = .ok vd)
    (hagent : pyTruthyOptStr cfg.agentId = true)
    (hdi : env.detectIntent = .ok msgs)
    (h1 : findSub marker (assembleReply msgs).toList = some i)
    (h2 : ∀ c ∈ (assembleReply msgs).toList.drop (i + marker.length),
      isPySpace c = true) :
    ∃ tr, chatToDraw cfg env req =
        (.ok { agentMessage := String.mk (pyStrip ((assembleReply msgs).toList.take i))
               generatedImage := none
               drawPrompt := some "" }, tr) ∧
      ExtService.synthesis ∉ tr := by
  have hpf := parse_found (assembleReply msgs) i h1
  have hseg : segmentAfterFirst (assembleReply msgs).toList i =
      (assembleReply msgs).toList.drop (i + marker.length) := by
    unfold segmentAfterFirst
    rw [findSub_marker_all_space _ h2]
  rw [hseg, pyStrip_all_space _ h2] at hpf
  have hca : ∀ sid ut desc, consultAgent cfg env sid ut desc =
      (.ok (parseAgentReply (assembleReply msgs)), [ExtService.dialogue]) := by
    intro sid ut desc
    unfold consultAgent
    rw [hagent, hdi]
    rfl
  obtain ⟨f, ut, sid, gflag, ch⟩ := req
  cases f with
  | none =>
    refine ⟨[ExtService.dialogue], ?_, by decide⟩
    unfold chatToDraw chatToDrawBody
    simp only [hca, hpf]
    all_goals rfl
  | some bytes =>
    by_cases hb : bytes.length > 0
    · refine ⟨[ExtService.vision, ExtService.dialogue], ?_, by decide⟩
      unfold chatToDraw chatToDrawBody analyzeImage
      simp only [hb, if_true, hv, hca, hpf]
      all_goals rfl
    · refine ⟨[ExtService.dialogue], ?_, by decide⟩
      unfold chatToDraw chatToDrawBody
      simp only [hb, if_false, hca, hpf]
      all_goals rfl

/-- C10, witnessed on the concrete reply that is exactly a chatty
prefix followed by the bare marker. -/
theorem c10_witness :
    (∃ tr, chatToDraw cfgFull envTrailing reqNoFile =
        (.ok { agentMessage :=
                 String.mk (pyStrip ((assembleReply [some "그릴게요! DRAW_PROMPT:"]).toList.take 6))
               generatedImage := none
               drawPrompt := some "" }, tr) ∧
      ExtService.synthesis ∉ tr) ∧
    String.mk (pyStrip ((assembleReply [some "그릴게요! DRAW_PROMPT:"]).toList.take 6)) =
      "그릴게요!" :=
  ⟨c10_trailing_marker cfgFull envTrailing reqNoFile
      [some "그릴게요! DRAW_PROMPT:"] "a cat" 6 rfl rfl rfl (by decide) (by decide),
   by decide⟩
